import Mathlib

/-!
Verification of the natural-language specification of the
`r.estimap.recreation` repository against its source code.

The repository's own code is orchestration around an external raster
engine: it builds `r.mapcalc` expression strings, chains raster commands,
manages temporary map names and merges coefficient dictionaries.  We embed
the expression-building functions as constructors of a small mapcalc
expression syntax `MExpr`, faithful to the strings the Python code
formats, together with a per-cell evaluation semantics.  Numeric cell
values are rationals; the transcendental `exp` of the engine is kept
abstract as an evaluation parameter `expf`, so that every statement is
quantified over the interpretation of `exp` and every concrete witness is
computable.
-/

/-- Per-cell mapcalc expression syntax, as built by the repository's
expression-building functions.  `var` refers to a raster map by name (its
per-cell value is supplied by an environment), `nullv` is `null()`,
`floatc` is the `float(...)` cast (identity on rational cell values),
`lett` models a binding introduced by mapcalc's `eval(name = e, ...)`
construct. -/
inductive MExpr : Type
  | num (q : ℚ)
  | var (name : String)
  | add (a b : MExpr)
  | sub (a b : MExpr)
  | mul (a b : MExpr)
  | div (a b : MExpr)
  | exp (a : MExpr)
  | eq (a b : MExpr)
  | lt (a b : MExpr)
  | and (a b : MExpr)
  | ifs (c t e : MExpr)
  | if2 (c t : MExpr)
  | nullv
  | floatc (a : MExpr)
  | lett (name : String) (value body : MExpr)
  deriving Repr, DecidableEq

/-- Per-cell evaluation of a mapcalc expression.  `expf` interprets the
engine's `exp` function; `env` gives the cell value of each raster map
(`none` is a NULL cell).  NULL propagates through arithmetic and
comparisons, division by zero is NULL, a two-argument `if` yields 0 when
the condition is false, and `eval(name = e, ...)` extends the
environment. -/
def MExpr.eval (expf : ℚ → ℚ) (env : String → Option ℚ) : MExpr → Option ℚ
  | num q => some q
  | var name => env name
  | add a b => (a.eval expf env).bind fun x => (b.eval expf env).map fun y => x + y
  | sub a b => (a.eval expf env).bind fun x => (b.eval expf env).map fun y => x - y
  | mul a b => (a.eval expf env).bind fun x => (b.eval expf env).map fun y => x * y
  | div a b =>
    (a.eval expf env).bind fun x => (b.eval expf env).bind fun y =>
      if y = 0 then none else some (x / y)
  | exp a => (a.eval expf env).map expf
  | eq a b =>
    (a.eval expf env).bind fun x => (b.eval expf env).map fun y =>
      if x = y then 1 else 0
  | lt a b =>
    (a.eval expf env).bind fun x => (b.eval expf env).map fun y =>
      if x < y then 1 else 0
  | and a b =>
    (a.eval expf env).bind fun x => (b.eval expf env).map fun y =>
      if x ≠ 0 ∧ y ≠ 0 then 1 else 0
  | ifs c t e =>
    (c.eval expf env).bind fun x =>
      if x ≠ 0 then t.eval expf env else e.eval expf env
  | if2 c t =>
    (c.eval expf env).bind fun x =>
      if x ≠ 0 then t.eval expf env else some 0
  | nullv => none
  | floatc a => a.eval expf env
  | lett name value body =>
    body.eval expf (fun m => if m = name then value.eval expf env else env m)

/-!
## `src/estimap_recreation/distance_functions.py`

`build_distance_function(constant, kappa, alpha, variable, score=None, ...)`
formats the string

    " ( {constant} + {kappa} ) / ( {kappa} + exp({alpha} * {variable}) )"

and appends `" * {score}"` exactly when `score` is truthy (`if score:`).
The numeric parameters are embedded as rationals; the Python truthiness of
a numeric `score` is `score ≠ 0`, of an absent one `False`.  The Python
parameter `variable` (a raster map name) is called `varname` here because
`variable` is a Lean keyword.
-/
def build_distance_function (constant kappa alpha : ℚ) (varname : String)
    (score : Option ℚ) : MExpr :=
  let numerator := MExpr.add (.num constant) (.num kappa)
  let denominator := MExpr.add (.num kappa) (.exp (.mul (.num alpha) (.var varname)))
  let function := MExpr.div numerator denominator
  match score with
  | some s => if s ≠ 0 then MExpr.mul function (.num s) else function
  | none => function

/-!
## `src/first_implementation/functions.py`, `f_d_euclidean`

    uno = 1
    grass.mapcalc("$outras = float(($alpha + $unoV) / ($alpha + exp($inras * $kappa)) * $score)", ...)

Note the roles: the parameter named `alpha` is the additive constant of
the decay formula, the parameter named `kappa` multiplies the distance
inside `exp`.
-/
def f_d_euclidean (inras : String) (alpha kappa score : ℚ) : MExpr :=
  let uno : ℚ := 1
  MExpr.floatc
    (.mul
      (.div (.add (.num alpha) (.num uno))
            (.add (.num alpha) (.exp (.mul (.var inras) (.num kappa)))))
      (.num score))

/-!
## `src/r.estimap/r.estimap.py`, `recreation_spectrum_expression`

The function formats the nested-`if` mapcalc expression

    if( {potential} == 1 && {opportunity} == 1, 1,
     if( {potential} == 1 && {opportunity} == 2, 2,
      ...
       if( {potential} == 3 && {opportunity} == 3, 9)))))))))

(the innermost `if` has two arguments).
-/
def recreation_spectrum_expression (potential opportunity : String) : MExpr :=
  .ifs (.and (.eq (.var potential) (.num 1)) (.eq (.var opportunity) (.num 1))) (.num 1)
  (.ifs (.and (.eq (.var potential) (.num 1)) (.eq (.var opportunity) (.num 2))) (.num 2)
  (.ifs (.and (.eq (.var potential) (.num 1)) (.eq (.var opportunity) (.num 3))) (.num 3)
  (.ifs (.and (.eq (.var potential) (.num 2)) (.eq (.var opportunity) (.num 1))) (.num 4)
  (.ifs (.and (.eq (.var potential) (.num 2)) (.eq (.var opportunity) (.num 2))) (.num 5)
  (.ifs (.and (.eq (.var potential) (.num 2)) (.eq (.var opportunity) (.num 3))) (.num 6)
  (.ifs (.and (.eq (.var potential) (.num 3)) (.eq (.var opportunity) (.num 1))) (.num 7)
  (.ifs (.and (.eq (.var potential) (.num 3)) (.eq (.var opportunity) (.num 2))) (.num 8)
  (.if2 (.and (.eq (.var potential) (.num 3)) (.eq (.var opportunity) (.num 3))) (.num 9)))))))))

/-- C1 (amended): for every constant, kappa, alpha and variable,
`build_distance_function` returns the mapcalc expression evaluating
`(constant + kappa) / (kappa + exp(alpha * variable))`, multiplied by
`score` exactly when a truthy score is supplied; `f_d_euclidean` of the
first implementation evaluates the same decay formula with constant 1,
but with its parameters in swapped roles: its `alpha` parameter is the
additive constant and its `kappa` parameter is the exponential
coefficient on the distance. -/
theorem C1_distance_decay_formula (expf : ℚ → ℚ) (env : String → Option ℚ)
    (constant kappa alpha : ℚ) (varname : String) (x s : ℚ)
    (hx : env varname = some x)
    (hden : kappa + expf (alpha * x) ≠ 0) :
    MExpr.eval expf env (build_distance_function constant kappa alpha varname none) =
      some ((constant + kappa) / (kappa + expf (alpha * x)))
    ∧ (s ≠ 0 →
      MExpr.eval expf env (build_distance_function constant kappa alpha varname (some s)) =
        some ((constant + kappa) / (kappa + expf (alpha * x)) * s))
    ∧ (alpha + expf (x * kappa) ≠ 0 →
      MExpr.eval expf env (f_d_euclidean varname alpha kappa s) =
        some ((alpha + 1) / (alpha + expf (x * kappa)) * s)) := by
  refine ⟨?_, fun hs => ?_, fun hden2 => ?_⟩
  · simp [build_distance_function, MExpr.eval, hx, hden]
  · simp [build_distance_function, MExpr.eval, hx, hden, hs]
  · simp [f_d_euclidean, MExpr.eval, hx, hden2]

/-- Witness for C1 at constant 1, kappa 1, alpha 2, cell value 1, score 2,
and for the `f_d_euclidean` part at alpha 2, kappa 1, score 2, with `exp`
interpreted as the identity function. -/
theorem C1_distance_decay_formula_witness :
    MExpr.eval id (fun _ => some 1) (build_distance_function 1 1 2 "d" none) =
      some ((1 + 1) / (1 + id (2 * 1)))
    ∧ MExpr.eval id (fun _ => some 1) (build_distance_function 1 1 2 "d" (some 2)) =
      some ((1 + 1) / (1 + id (2 * 1)) * 2)
    ∧ MExpr.eval id (fun _ => some 1) (f_d_euclidean "d" 2 1 2) =
      some ((2 + 1) / (2 + id (1 * 1)) * 2) := by
  obtain ⟨h1, h2, h3⟩ :=
    C1_distance_decay_formula id (fun _ => some 1) 1 1 2 "d" 1 2 rfl (by norm_num)
  exact ⟨h1, h2 (by norm_num), h3 (by norm_num)⟩

/-- C1 as stated is false: with its `kappa` parameter in the additive
role and its `alpha` parameter in the exponential role (as the claim
asserts), `f_d_euclidean "d" 2 0 1` at distance 1 would evaluate to
`(1 + 0) / (0 + exp(2 * 1)) * 1`; the code evaluates to
`(2 + 1) / (2 + exp(1 * 0)) * 1` instead (exp interpreted as the
identity function). -/
theorem C1_distance_decay_formula_counterexample :
    MExpr.eval id (fun _ => some 1) (f_d_euclidean "d" 2 0 1) ≠
      some ((1 + 0) / (0 + id (2 * 1)) * 1) := by
  norm_num [f_d_euclidean, MExpr.eval]

/-- C2: for every pair of raster names `p` and `o`, the expression
returned by `recreation_spectrum_expression p o` assigns, to every cell
whose potential class lies in {1,2,3} and whose opportunity class lies in
{1,2,3}, the spectrum class `3 * (potential - 1) + opportunity`: the
fixed 3-by-3 decision table with rows indexed by potential and columns by
opportunity. -/
theorem C2_recreation_spectrum_table (expf : ℚ → ℚ) (env : String → Option ℚ)
    (p o : String) (vp vo : ℚ)
    (hp : env p = some vp) (ho : env o = some vo)
    (hvp : vp = 1 ∨ vp = 2 ∨ vp = 3) (hvo : vo = 1 ∨ vo = 2 ∨ vo = 3) :
    MExpr.eval expf env (recreation_spectrum_expression p o) =
      some (3 * (vp - 1) + vo) := by
  rcases hvp with rfl | rfl | rfl <;> rcases hvo with rfl | rfl | rfl <;>
    norm_num [recreation_spectrum_expression, MExpr.eval, hp, ho]

/-- Witness for C2 at potential class 2 and opportunity class 3: the
expression evaluates to spectrum class 6. -/
theorem C2_recreation_spectrum_table_witness :
    MExpr.eval id (fun n => if n = "pot" then some 2 else some 3)
      (recreation_spectrum_expression "pot" "opp") = some (3 * (2 - 1) + 3) := by
  exact C2_recreation_spectrum_table id (fun n => if n = "pot" then some 2 else some 3)
    "pot" "opp" 2 3 rfl rfl (Or.inr (Or.inl rfl)) (Or.inr (Or.inr rfl))

/-!
## `src/r.estimap/r.estimap.py`, `build_mobility_function`

The function formats the string

    " ( {constant} + {kappa} / {kappa} + exp({alpha} * {population}) )"

Note the missing parentheses around the numerator and the denominator:
under mapcalc operator precedence this string parses as
`constant + (kappa / kappa) + exp(alpha * population)`, not as the decay
formula `(constant + kappa) / (kappa + exp(alpha * population))` that the
function's own docstring announces.  The `" * {score}"` factor is
appended exactly when the keyword argument `score` is present in
`kwargs` (`if 'score' in kwargs:`), regardless of its value.
-/
def build_mobility_function (constant kappa alpha : ℚ) (population : String)
    (score : Option ℚ) : MExpr :=
  let function :=
    MExpr.add
      (.add (.num constant) (.div (.num kappa) (.num kappa)))
      (.exp (.mul (.num alpha) (.var population)))
  match score with
  | some s => MExpr.mul function (.num s)
  | none => function

/-!
## `src/r.estimap/r.estimap.py`, `compute_mobility`

The coefficients dictionary is keyed by the distance categories
'0' .. '4'; each value is a `(kappa, alpha)` pair.
-/
structure MobilityCoefficients : Type where
  c0 : ℚ × ℚ
  c1 : ℚ × ℚ
  c2 : ℚ × ℚ
  c3 : ℚ × ℚ
  c4 : ℚ × ℚ
  deriving Repr, DecidableEq

/-- `compute_mobility(distance_map, constant, coefficients, population, score)`
builds one mobility expression per distance category through
`build_mobility_function` (always passing the `score` keyword), then
formats the mapcalc expression

    eval( mobility_0 = {expression_0}, ..., mobility_3 = {expression_3},
          distance_0 = {distance} == 0, ..., distance_3 = {distance} == 3,
          if( distance_0, mobility_0, if( distance_1, mobility_1,
           if( distance_2, mobility_2, if( distance_3, mobility_3, null() )))))

`expressions['4']` is computed and handed to the format call but the
template never mentions `{expression_4}`, so category 4 does not occur in
the returned expression. -/
def compute_mobility (distance_map : String) (constant : ℚ)
    (coefficients : MobilityCoefficients) (population : String) (score : ℚ) :
    MExpr :=
  let expression_0 :=
    build_mobility_function constant coefficients.c0.1 coefficients.c0.2 population (some score)
  let expression_1 :=
    build_mobility_function constant coefficients.c1.1 coefficients.c1.2 population (some score)
  let expression_2 :=
    build_mobility_function constant coefficients.c2.1 coefficients.c2.2 population (some score)
  let expression_3 :=
    build_mobility_function constant coefficients.c3.1 coefficients.c3.2 population (some score)
  .lett "mobility_0" expression_0
  (.lett "mobility_1" expression_1
  (.lett "mobility_2" expression_2
  (.lett "mobility_3" expression_3
  (.lett "distance_0" (.eq (.var distance_map) (.num 0))
  (.lett "distance_1" (.eq (.var distance_map) (.num 1))
  (.lett "distance_2" (.eq (.var distance_map) (.num 2))
  (.lett "distance_3" (.eq (.var distance_map) (.num 3))
  (.ifs (.var "distance_0") (.var "mobility_0")
  (.ifs (.var "distance_1") (.var "mobility_1")
  (.ifs (.var "distance_2") (.var "mobility_2")
  (.ifs (.var "distance_3") (.var "mobility_3")
  .nullv)))))))))))

/-- C5: the claim is right about the intended mobility function (the
docstring of `build_mobility_function` says the basic function is
identical to the attractiveness decay formula) but the code drops the
parentheses around numerator and denominator.  At constant 1, kappa 2,
alpha 0 and population cell value 1 (with `exp` interpreted as the
identity function), `build_mobility_function` evaluates to
`1 + 2/2 + exp(0*1) = 2` while `build_distance_function` with the same
arguments evaluates to `(1 + 2) / (2 + exp(0*1)) = 3/2`. -/
theorem C5_mobility_differs_from_distance_function :
    MExpr.eval id (fun _ => some 1) (build_mobility_function 1 2 0 "population" none) =
      some 2
    ∧ MExpr.eval id (fun _ => some 1) (build_distance_function 1 2 0 "population" none) =
      some (3 / 2)
    ∧ MExpr.eval id (fun _ => some 1) (build_mobility_function 1 2 0 "population" none) ≠
      MExpr.eval id (fun _ => some 1) (build_distance_function 1 2 0 "population" none) := by
  refine ⟨?_, ?_, ?_⟩ <;>
    norm_num [build_mobility_function, build_distance_function, MExpr.eval]

/-- C6: the dispatch over distance categories is as the claim says: with
coefficients `'0' ↦ (2,0)`, `'1' ↦ (2,1)`, `'2' ↦ (2,2)`, `'3' ↦ (2,3)`,
constant 1, population cell value 1, score 1 and `exp` interpreted as the
identity function, a cell of distance category `d ∈ {0,1,2,3}` evaluates
to `(1 + 2/2 + exp(alpha_d * 1)) * 1 = 2 + alpha_d`, a cell of category 5
evaluates to NULL, and the coefficients of category 4 never occur in the
returned expression (two tables differing only at `'4'` give equal
expressions).  But the per-category value is `build_mobility_function`'s
mis-parenthesised expression, not the decay formula: at category 0 the
expression evaluates to `(1 + 2/2 + exp(0*1)) * 1 = 2`, whereas the decay
formula instantiated with those coefficients gives
`(1 + 2) / (2 + exp(0*1)) * 1 = 3/2`. -/
theorem C6_compute_mobility_at_failing_input :
    MExpr.eval id (fun n => if n = "dist" then some 0 else some 1)
      (compute_mobility "dist" 1 ⟨(2, 0), (2, 1), (2, 2), (2, 3), (7, 7)⟩ "pop" 1) =
      some 2
    ∧ ((1 + 2) / (2 + id (0 * 1)) * 1 : ℚ) = 3 / 2
    ∧ (2 : ℚ) ≠ 3 / 2
    ∧ MExpr.eval id (fun n => if n = "dist" then some 1 else some 1)
      (compute_mobility "dist" 1 ⟨(2, 0), (2, 1), (2, 2), (2, 3), (7, 7)⟩ "pop" 1) =
      some 3
    ∧ MExpr.eval id (fun n => if n = "dist" then some 2 else some 1)
      (compute_mobility "dist" 1 ⟨(2, 0), (2, 1), (2, 2), (2, 3), (7, 7)⟩ "pop" 1) =
      some 4
    ∧ MExpr.eval id (fun n => if n = "dist" then some 3 else some 1)
      (compute_mobility "dist" 1 ⟨(2, 0), (2, 1), (2, 2), (2, 3), (7, 7)⟩ "pop" 1) =
      some 5
    ∧ MExpr.eval id (fun n => if n = "dist" then some 5 else some 1)
      (compute_mobility "dist" 1 ⟨(2, 0), (2, 1), (2, 2), (2, 3), (7, 7)⟩ "pop" 1) =
      none
    ∧ compute_mobility "dist" 1 ⟨(2, 0), (2, 1), (2, 2), (2, 3), (7, 7)⟩ "pop" 1 =
      compute_mobility "dist" 1 ⟨(2, 0), (2, 1), (2, 2), (2, 3), (9, 9)⟩ "pop" 1 := by
  refine ⟨?_, by norm_num, by norm_num, ?_, ?_, ?_, ?_, rfl⟩
  · simp [compute_mobility, build_mobility_function, MExpr.eval]
    norm_num
  · simp [compute_mobility, build_mobility_function, MExpr.eval]
    norm_num
  · simp [compute_mobility, build_mobility_function, MExpr.eval]
    norm_num
  · simp [compute_mobility, build_mobility_function, MExpr.eval]
    norm_num
  · simp [compute_mobility, build_mobility_function, MExpr.eval]

/-!
## Raster database environment

`grass.find_file(name=..., element='cell')` reports whether a raster map
exists in the raster database (the Python code tests `finding['file']`,
an empty value being falsy); `grass.raster_info(map)['min']` and
`['max']` are the map's minimum and maximum statistics.  Both are
external queries, modelled as an environment record.
-/
structure Grass : Type where
  find_file : String → Bool
  raster_min : String → ℚ
  raster_max : String → ℚ

/-- `normalize_map(raster, output_name)` from `src/r.estimap/r.estimap.py`:
calls `grass.fatal` (modelled as `Except.error`) when the input raster is
not found; otherwise reads the map's minimum and maximum statistics and
issues the mapcalc equation

    {output_name} = float(({raster} - {minimum}) / ({maximum} - {minimum}))

The result is the pair of the equation's result name and expression. -/
def normalize_map (gr : Grass) (raster output_name : String) :
    Except String (String × MExpr) :=
  if !(gr.find_file raster) then
    .error ("Raster map " ++ raster ++ " not found")
  else
    let minimum := gr.raster_min raster
    let maximum := gr.raster_max raster
    .ok (output_name,
      .floatc (.div (.sub (.var raster) (.num minimum))
                    (.sub (.num maximum) (.num minimum))))

/-- `normalize(inras, outras)` from `src/first_implementation/functions.py`
(lines 36-42): reads the input's minimum and maximum statistics into
local variables named `min` and `max` (shadowing the Python builtins) and
issues the mapcalc template

    $outras = float(($inras -$valuem) / ($valueM-$valuem))

with `valuem=min, valueM=max`. -/
def first_implementation_normalize (gr : Grass) (inras outras : String) :
    String × MExpr :=
  let min := gr.raster_min inras
  let max := gr.raster_max inras
  (outras, .floatc (.div (.sub (.var inras) (.num min))
                         (.sub (.num max) (.num min))))

/-- A value passed into a `grass.mapcalc` template substitution slot by
`normalize` of `src/r.estimap.py`: either a number, or one of the Python
builtin function objects `min` / `max` (whose string form is not a
number). -/
inductive PyVal : Type
  | rat (q : ℚ)
  | builtin_min
  | builtin_max
  deriving Repr, DecidableEq

/-- `normalize(inras, outras)` from `src/r.estimap.py` (lines 105-113)
computes `minimum = grass.raster_info(inras)['min']` and
`maximum = grass.raster_info(inras)['max']`, but the mapcalc call

    grass.mapcalc("$outras = float(($inras -$valuem) / ($valueM - $valuem))",
                  inras=inras, outras=outras, valuem=min, valueM=max, ...)

passes the Python builtins `min` and `max` for the `$valuem` and
`$valueM` slots; the computed statistics are never used.  The embedding
returns the pair of values passed for those two slots. -/
def r_estimap_py_normalize (gr : Grass) (inras outras : String) :
    PyVal × PyVal :=
  let minimum := gr.raster_min inras
  let maximum := gr.raster_max inras
  (PyVal.builtin_min, PyVal.builtin_max)

/-- C3: the claim holds for `normalize_map` (r.estimap/r.estimap.py) and
for `normalize` of first_implementation/functions.py, whose issued
expressions evaluate to `(x - min) / (max - min)` with the computed
statistics (at min 2, max 10 and cell value 6 both give 1/2); but
`normalize` of `src/r.estimap.py` passes the Python builtin function
objects `min` and `max` into the template slots instead of the computed
statistics 2 and 10, so its output is not the claimed normalization. -/
theorem C3_normalize_statistics_substitution :
    r_estimap_py_normalize ⟨fun _ => true, fun _ => 2, fun _ => 10⟩ "in" "out" =
      (PyVal.builtin_min, PyVal.builtin_max)
    ∧ (PyVal.builtin_min, PyVal.builtin_max) ≠ (PyVal.rat 2, PyVal.rat 10)
    ∧ (∃ e, normalize_map ⟨fun _ => true, fun _ => 2, fun _ => 10⟩ "in" "out" =
        .ok ("out", e)
        ∧ MExpr.eval id (fun _ => some 6) e = some ((6 - 2) / (10 - 2)))
    ∧ MExpr.eval id (fun _ => some 6)
        (first_implementation_normalize ⟨fun _ => true, fun _ => 2, fun _ => 10⟩
          "in" "out").2 = some ((6 - 2) / (10 - 2)) := by
  refine ⟨rfl, by simp, ⟨_, rfl, ?_⟩, ?_⟩
  · simp [normalize_map, MExpr.eval]
    norm_num
  · simp [first_implementation_normalize, MExpr.eval]
    norm_num

/-!
## `src/estimap_recreation/grassy_utilities.py`

`tmp_map_name`, `export_map` and the exit-time cleanup helpers.
`grass.tempfile()` creates a process-owned temporary file and returns its
absolute path; it is an external call, so the path is a parameter of the
embedding.  `grass.basename` (called without an extension argument) is
`os.path.basename`: the characters after the last `'/'` of the path.
-/
def basename (path : String) : String :=
  String.mk ((path.data.reverse.takeWhile (fun c => c ≠ '/')).reverse)

/-- `tmp_map_name(name=None)`: prefix `"tmp."` to the basename of the
fresh temporary file, and append `"." + str(name)` when `name` is truthy
(`if name:`). -/
def tmp_map_name (temporary_absolute_filename : String) (name : Option String) :
    String :=
  let temporary_filename := "tmp." ++ basename temporary_absolute_filename
  match name with
  | some n => if n ≠ "" then temporary_filename ++ "." ++ n else temporary_filename
  | none => temporary_filename

/-- External raster-engine and file-system calls performed by
`export_map` and friends, in order of execution. -/
inductive GAction : Type
  | write_file (filename : String)
  | register_remove_file (filename : String)
  | category (map : String)
  | support (map : String)
  | timestamp (map : String)
  | colors (map : String)
  | rename (src dst : String)
  deriving Repr, DecidableEq

/-- `update_meta(raster, title, timestamp=None)` from
`src/estimap_recreation/grassy_utilities.py`: always calls `r.support`,
and calls `r.timestamp` exactly when `timestamp` is truthy. -/
def update_meta (raster : String) (timestamp : Option String) : List GAction :=
  [GAction.support raster] ++
    (match timestamp with
     | some t => if t ≠ "" then [GAction.timestamp raster] else []
     | none => [])

/-- `export_map(input_name, title, categories, colors, output_name, timestamp)`
from `src/estimap_recreation/grassy_utilities.py`: calls `grass.fatal`
(modelled as `Except.error`) exactly when `grass.find_file` reports no
file for the input map; otherwise writes the category-label file
(`string_to_file` always returns the filename, its `finally` block
returns it even on `IOError`), registers the file's removal at exit,
applies categories, metadata and colors to the input, renames the input
to the requested output name and returns `output_name`.  The trace of
external actions is returned alongside the result. -/
def export_map (gr : Grass) (tempfile : String)
    (input_name categories colors output_name : String)
    (timestamp : Option String) : Except String (List GAction × String) :=
  if !(gr.find_file input_name) then
    .error ("Raster map " ++ input_name ++ " not found")
  else
    let temporary_raster_categories_map :=
      tmp_map_name tempfile (some ("categories_of_" ++ input_name))
    let raster_category_labels := temporary_raster_categories_map
    .ok ([GAction.write_file raster_category_labels,
          GAction.register_remove_file raster_category_labels,
          GAction.category input_name]
         ++ update_meta input_name timestamp
         ++ [GAction.colors input_name,
             GAction.rename input_name output_name],
         output_name)

/-- C7: `export_map` and `normalize_map` abort fatally with a message if
and only if the input raster map is not found in the raster database;
when the input exists, no fatal abort occurs, `export_map`'s action trace
renames the input to the requested output name exactly once (as its final
action, so nothing is retried after it) and the function returns
`output_name`. -/
theorem C7_fatal_iff_not_found (gr : Grass)
    (tempfile input_name categories colors output_name : String)
    (timestamp : Option String) (raster out2 : String) :
    ((export_map gr tempfile input_name categories colors output_name
        timestamp).isOk = true ↔ gr.find_file input_name = true)
    ∧ (gr.find_file input_name = false →
        export_map gr tempfile input_name categories colors output_name
          timestamp = .error ("Raster map " ++ input_name ++ " not found"))
    ∧ (gr.find_file input_name = true →
        ∃ tr, export_map gr tempfile input_name categories colors output_name
            timestamp = .ok (tr, output_name)
          ∧ tr.count (GAction.rename input_name output_name) = 1
          ∧ tr.getLast? = some (GAction.rename input_name output_name))
    ∧ ((normalize_map gr raster out2).isOk = true ↔ gr.find_file raster = true)
    ∧ (gr.find_file raster = false →
        normalize_map gr raster out2 =
          .error ("Raster map " ++ raster ++ " not found")) := by
  refine ⟨?_, ?_, ?_, ?_, ?_⟩
  · by_cases h : gr.find_file input_name <;>
      simp [export_map, h, Except.isOk, Except.toBool]
  · intro h
    simp [export_map, h]
  · intro h
    refine ⟨[GAction.write_file
        (tmp_map_name tempfile (some ("categories_of_" ++ input_name))),
      GAction.register_remove_file
        (tmp_map_name tempfile (some ("categories_of_" ++ input_name))),
      GAction.category input_name] ++ update_meta input_name timestamp
      ++ [GAction.colors input_name, GAction.rename input_name output_name],
      by simp [export_map, h], ?_, ?_⟩ <;>
      rcases timestamp with _ | t
    · simp [update_meta, List.count_append, List.count_cons]
    · by_cases ht : t = "" <;>
        simp [update_meta, ht, List.count_append, List.count_cons]
    · simp [update_meta]
    · by_cases ht : t = "" <;> simp [update_meta, ht]
  · by_cases h : gr.find_file raster <;>
      simp [normalize_map, h, Except.isOk, Except.toBool]
  · intro h
    simp [normalize_map, h]

/-- Witness for C7: with a database where every map exists, `export_map`
succeeds, ends in the rename and returns the output name; with a
database where no map exists, `normalize_map` aborts fatally with the
expected message. -/
theorem C7_fatal_iff_not_found_witness :
    (export_map ⟨fun _ => true, fun _ => 2, fun _ => 10⟩ "/tmp/123.0"
      "in" "cats" "cols" "out" none).isOk = true
    ∧ (∃ tr, export_map ⟨fun _ => true, fun _ => 2, fun _ => 10⟩ "/tmp/123.0"
        "in" "cats" "cols" "out" none = .ok (tr, "out")
        ∧ tr.count (GAction.rename "in" "out") = 1
        ∧ tr.getLast? = some (GAction.rename "in" "out"))
    ∧ normalize_map ⟨fun _ => false, fun _ => 2, fun _ => 10⟩ "r" "o" =
        .error ("Raster map " ++ "r" ++ " not found") := by
  refine ⟨?_, ?_, ?_⟩
  · exact (C7_fatal_iff_not_found ⟨fun _ => true, fun _ => 2, fun _ => 10⟩
      "/tmp/123.0" "in" "cats" "cols" "out" none "r" "o").1.mpr rfl
  · exact (C7_fatal_iff_not_found ⟨fun _ => true, fun _ => 2, fun _ => 10⟩
      "/tmp/123.0" "in" "cats" "cols" "out" none "r" "o").2.2.1 rfl
  · exact (C7_fatal_iff_not_found ⟨fun _ => false, fun _ => 2, fun _ => 10⟩
      "/tmp/123.0" "in" "cats" "cols" "out" none "r" "o").2.2.2.2 rfl

/-!
## `src/r.estimap/r.estimap.py`, `zerofy_small_values` and
`zerofy_and_normalise_component`

Module constants (lines 607-611): `spacy_plus = ' + '`,
`equation = "{result} = {expression}"`, `THRESHHOLD_ZERO = 0`.
-/
def THRESHHOLD_ZERO : ℚ := 0

/-- `zerofy_small_values(raster, threshhold, output_name)`: issues the
mapcalc equation

    {output_name} = if({raster} < {threshhold}, 0, {raster})

Result: the equation's result name and expression. -/
def zerofy_small_values (raster : String) (threshhold : ℚ) (output_name : String) :
    String × MExpr :=
  (output_name, .ifs (.lt (.var raster) (.num threshhold)) (.num 0) (.var raster))

/-- `name.split('@')[0]`: strip an `@mapset` suffix from a raster name
(`zerofy_and_normalise_component` line 1553). -/
def strip_mapset (name : String) : String := (name.splitOn "@").headD ""

/-- The summation expression `spacy_plus.join(components)` with
`spacy_plus = ' + '`: a left-associated chain of additions of the
component raster names.  (Only called on lists of length at least 2;
the `[]` case is unreachable there.) -/
def component_sum_expression : List String → MExpr
  | [] => .num 0
  | c :: rest => rest.foldl (fun acc n => .add acc (.var n)) (.var c)

/-- One step of the `zerofy_and_normalise_component` pipeline: a mapcalc
equation writing `expr` into the raster `result`, or the final
`normalize_map(input, output)` call. -/
inductive ZStep : Type
  | mapcalc (result : String) (expr : MExpr)
  | normalize (input output : String)
  deriving Repr, DecidableEq

/-- Lines 1575-1589 of `zerofy_and_normalise_component`: when
`threshhold > THRESHHOLD_ZERO`, zerofy the intermediate map into
`tmp_output` and normalize that; otherwise normalize the intermediate
map directly (`tmp_output = tmp_intermediate`). -/
def threshold_then_normalise (threshhold : ℚ)
    (tmp_intermediate tmp_output output_name : String) : List ZStep :=
  if THRESHHOLD_ZERO < threshhold then
    [ZStep.mapcalc (zerofy_small_values tmp_intermediate threshhold tmp_output).1
       (zerofy_small_values tmp_intermediate threshhold tmp_output).2,
     ZStep.normalize tmp_output output_name]
  else
    [ZStep.normalize tmp_intermediate output_name]

/-- `zerofy_and_normalise_component(components, threshhold, output_name)`:
when more than one component is listed, the `@mapset` suffixes are
stripped and the components' sum is written to a temporary map
(`tmp_intermediate`); when exactly one is listed, that map itself is the
intermediate and no sum is computed.  Then thresholding (exactly when
`threshhold > THRESHHOLD_ZERO`) and normalization into `output_name`
follow.  The two successive `tmp_map_name` calls yield fresh names,
supplied here by the `fresh` parameter (`fresh 0` the first call,
`fresh 1` the second).  An empty component list raises `NameError` in
Python (`tmp_intermediate` is unbound); it is mapped to the empty
plan. -/
def zerofy_and_normalise_component (fresh : ℕ → String)
    (components : List String) (threshhold : ℚ) (output_name : String) :
    List ZStep :=
  if 1 < components.length then
    [ZStep.mapcalc (fresh 0) (component_sum_expression (components.map strip_mapset))] ++
      threshold_then_normalise threshhold (fresh 0) (fresh 1) output_name
  else if components.length = 1 then
    threshold_then_normalise threshhold (components.headD "") (fresh 0) output_name
  else []

/-- Evaluation of the left-associated addition chain: starting from an
accumulator that evaluates to `v`, folding `+ var` over a list of names
adds the sum of their cell values. -/
theorem eval_foldl_add (expf : ℚ → ℚ) (vals : String → ℚ) (l : List String)
    (acc : MExpr) (v : ℚ)
    (h : MExpr.eval expf (fun m => some (vals m)) acc = some v) :
    MExpr.eval expf (fun m => some (vals m))
      (l.foldl (fun a n => MExpr.add a (.var n)) acc) =
      some (v + (l.map vals).sum) := by
  induction l generalizing acc v with
  | nil => simpa using h
  | cons n rest ih =>
    have h2 : MExpr.eval expf (fun m => some (vals m)) (MExpr.add acc (.var n)) =
        some (v + vals n) := by
      simp [MExpr.eval, h]
    simpa [add_assoc] using ih (MExpr.add acc (.var n)) (v + vals n) h2

/-- C4: for every non-empty list of component layers and every threshold
`t`, `zerofy_and_normalise_component` performs, in order: (1) the
arithmetic sum of all listed layers into a temporary map — skipped, with
the single layer standing in, when the list has exactly one element —
(2) exactly when `t > 0`, zerofication via `zerofy_small_values`, whose
expression maps a cell value `x` to 0 when `x < t` and to `x` otherwise,
and (3) `normalize_map` of the result into `output_name`; and the sum
expression evaluates to the arithmetic sum of the listed layers' cell
values. -/
theorem C4_zerofy_and_normalise_component (fresh : ℕ → String)
    (components : List String) (c : String) (threshhold : ℚ)
    (output_name : String) (expf : ℚ → ℚ) (vals : String → ℚ) :
    (1 < components.length → 0 < threshhold →
      zerofy_and_normalise_component fresh components threshhold output_name =
        [ZStep.mapcalc (fresh 0)
            (component_sum_expression (components.map strip_mapset)),
         ZStep.mapcalc (fresh 1)
            (zerofy_small_values (fresh 0) threshhold (fresh 1)).2,
         ZStep.normalize (fresh 1) output_name])
    ∧ (1 < components.length → ¬ 0 < threshhold →
      zerofy_and_normalise_component fresh components threshhold output_name =
        [ZStep.mapcalc (fresh 0)
            (component_sum_expression (components.map strip_mapset)),
         ZStep.normalize (fresh 0) output_name])
    ∧ (components = [c] → 0 < threshhold →
      zerofy_and_normalise_component fresh components threshhold output_name =
        [ZStep.mapcalc (fresh 0) (zerofy_small_values c threshhold (fresh 0)).2,
         ZStep.normalize (fresh 0) output_name])
    ∧ (components = [c] → ¬ 0 < threshhold →
      zerofy_and_normalise_component fresh components threshhold output_name =
        [ZStep.normalize c output_name])
    ∧ (components ≠ [] →
      MExpr.eval expf (fun m => some (vals m)) (component_sum_expression components) =
        some ((components.map vals).sum))
    ∧ (∀ r out, MExpr.eval expf (fun m => some (vals m))
        (zerofy_small_values r threshhold out).2 =
        some (if vals r < threshhold then 0 else vals r)) := by
  refine ⟨?_, ?_, ?_, ?_, ?_, ?_⟩
  · intro hl ht
    simp [zerofy_and_normalise_component, threshold_then_normalise, hl,
      THRESHHOLD_ZERO, ht, zerofy_small_values]
  · intro hl ht
    simp [zerofy_and_normalise_component, threshold_then_normalise, hl,
      THRESHHOLD_ZERO, ht, zerofy_small_values]
  · intro hc ht
    subst hc
    simp [zerofy_and_normalise_component, threshold_then_normalise,
      THRESHHOLD_ZERO, ht, zerofy_small_values]
  · intro hc ht
    subst hc
    simp [zerofy_and_normalise_component, threshold_then_normalise,
      THRESHHOLD_ZERO, ht, zerofy_small_values]
  · intro hne
    match components with
    | n :: rest =>
      have h0 : MExpr.eval expf (fun m => some (vals m)) (MExpr.var n) =
          some (vals n) := rfl
      simpa using eval_foldl_add expf vals rest (MExpr.var n) (vals n) h0
  · intro r out
    by_cases hc : vals r < threshhold <;>
      simp [zerofy_small_values, MExpr.eval, hc]

/-- Witness for C4 with components `["a@m", "b"]`, threshold 1, output
name `"out"`, cell values all 2 and fresh temporary names
`"tmp0"`, `"tmp1"`. -/
theorem C4_zerofy_and_normalise_component_witness :
    zerofy_and_normalise_component (fun n => "tmp" ++ toString n)
        ["a@m", "b"] 1 "out" =
      [ZStep.mapcalc ("tmp" ++ toString 0)
          (component_sum_expression (["a@m", "b"].map strip_mapset)),
       ZStep.mapcalc ("tmp" ++ toString 1)
          (zerofy_small_values ("tmp" ++ toString 0) 1 ("tmp" ++ toString 1)).2,
       ZStep.normalize ("tmp" ++ toString 1) "out"]
    ∧ MExpr.eval id (fun _ => some 2) (component_sum_expression ["a@m", "b"]) =
        some ((["a@m", "b"].map (fun _ => (2 : ℚ))).sum)
    ∧ MExpr.eval id (fun _ => some 2) (zerofy_small_values "r" 1 "o").2 =
        some (if (2 : ℚ) < 1 then 0 else 2) := by
  obtain ⟨h1, _, _, _, h5, h6⟩ :=
    C4_zerofy_and_normalise_component (fun n => "tmp" ++ toString n)
      ["a@m", "b"] "z" 1 "out" id (fun _ => 2)
  exact ⟨h1 (by norm_num) (by norm_num), h5 (by simp), h6 "r" "o"⟩

/-!
## Temporary-map cleanup (`src/estimap_recreation/grassy_utilities.py`)

`remove_temporary_maps` calls `g.remove` with the glob pattern
`"tmp.{pid}*".format(pid=os.getpid())`; a map name matches that pattern
(the trailing `*` matching any suffix) exactly when `"tmp." + pid` is a
prefix of the name.  `remove_map_at_exit(map_name)` registers
`lambda: remove_map(map_name)` with `atexit.register`, appending it to
the process's exit-callback registry.
-/

/-- An exit-time callback registered via `atexit.register`. -/
inductive Callback : Type
  | remove_map (map_name : String)
  | unlink (filename : String)
  deriving Repr, DecidableEq

/-- `remove_map_at_exit(map_name)`: append the removal of `map_name` to
the exit-callback registry. -/
def remove_map_at_exit (map_name : String) (registry : List Callback) :
    List Callback :=
  registry ++ [Callback.remove_map map_name]

/-- A raster map name is deleted by `remove_temporary_maps` (pattern
`"tmp.{pid}*"`) exactly when `"tmp." ++ pid` is a prefix of it. -/
def remove_temporary_maps_deletes (pid map_name : String) : Prop :=
  ("tmp." ++ pid).data <+: map_name.data

/-- C8: every name returned by `tmp_map_name` is `"tmp."` followed by the
basename of the fresh temporary file, with `"." ++ name` appended when a
non-empty name is given; since the basename of a GRASS process-owned
temporary file starts with the process id (hypothesis `hpid`), every such
name matches the `"tmp.{pid}*"` pattern that `remove_temporary_maps`
deletes; and `remove_map_at_exit` registers the removal of its argument
as an exit-time callback. -/
theorem C8_tmp_map_name_cleanup (tempfile pid name : String)
    (registry : List Callback)
    (hpid : pid.data <+: (basename tempfile).data)
    (hname : name ≠ "") :
    tmp_map_name tempfile none = "tmp." ++ basename tempfile
    ∧ tmp_map_name tempfile (some name) =
        "tmp." ++ basename tempfile ++ "." ++ name
    ∧ remove_temporary_maps_deletes pid (tmp_map_name tempfile none)
    ∧ remove_temporary_maps_deletes pid (tmp_map_name tempfile (some name))
    ∧ remove_map_at_exit (tmp_map_name tempfile (some name)) registry =
        registry ++ [Callback.remove_map (tmp_map_name tempfile (some name))] := by
  obtain ⟨rest, hrest⟩ := hpid
  have htmp : tmp_map_name tempfile (some name) =
      "tmp." ++ basename tempfile ++ "." ++ name := by
    simp [tmp_map_name, hname]
  refine ⟨rfl, htmp, ?_, ?_, rfl⟩
  · refine ⟨rest, ?_⟩
    show (("tmp." ++ pid).data) ++ rest = ("tmp." ++ basename tempfile).data
    simp only [String.data_append, List.append_assoc]
    rw [hrest]
  · refine ⟨rest ++ ".".data ++ name.data, ?_⟩
    rw [htmp]
    simp only [String.data_append, List.append_assoc]
    rw [← hrest]
    simp [List.append_assoc]

/-- Witness for C8: a temporary file `/grassdata/.tmp/12345.0` of process
12345 and map-name suffix `"potential"`. -/
theorem C8_tmp_map_name_cleanup_witness :
    tmp_map_name "/grassdata/.tmp/12345.0" none =
      "tmp." ++ basename "/grassdata/.tmp/12345.0"
    ∧ tmp_map_name "/grassdata/.tmp/12345.0" (some "potential") =
      "tmp." ++ basename "/grassdata/.tmp/12345.0" ++ "." ++ "potential"
    ∧ remove_temporary_maps_deletes "12345"
        (tmp_map_name "/grassdata/.tmp/12345.0" none)
    ∧ remove_temporary_maps_deletes "12345"
        (tmp_map_name "/grassdata/.tmp/12345.0" (some "potential"))
    ∧ remove_map_at_exit (tmp_map_name "/grassdata/.tmp/12345.0" (some "potential")) [] =
        [] ++ [Callback.remove_map
          (tmp_map_name "/grassdata/.tmp/12345.0" (some "potential"))] := by
  exact C8_tmp_map_name_cleanup "/grassdata/.tmp/12345.0" "12345" "potential" []
    (by decide) (by decide)

/-!
## C9: name resolution in `compute_attractiveness`
(`src/estimap_recreation/distance_functions.py`, lines 84-188)

Python resolves a name read inside a function body against the function's
parameters and local bindings, then the module's globals (then builtins).
`compute_attractiveness`'s body reads `score` (line 133, `if score:`),
which is neither a parameter nor assigned anywhere in the body nor
defined at module level, so the read raises `NameError`.  The body is
transcribed below as a sequence of non-builtin name reads and bindings in
source order (statements inside conditional branches included in source
order; nothing after the first failing read can affect the first
unresolved read or whether a `build_distance_function` call is reached
before it).
-/
inductive PyStep : Type
  | read (n : String)
  | bind (n : String)
  | call_build_distance_function
  deriving Repr, DecidableEq

/-- The first name read that resolves against neither the bound names
(parameters and locals assigned so far) nor the module globals: the name
whose lookup raises `NameError`. -/
def first_unresolved_read (bound : List String) : List PyStep → Option String
  | [] => none
  | .read n :: rest =>
    if n ∈ bound then first_unresolved_read bound rest else some n
  | .bind n :: rest => first_unresolved_read (n :: bound) rest
  | .call_build_distance_function :: rest => first_unresolved_read bound rest

/-- Whether a `build_distance_function` call is reached before the first
unresolved name read. -/
def reaches_build_before_error (bound : List String) : List PyStep → Bool
  | [] => false
  | .read n :: rest =>
    if n ∈ bound then reaches_build_before_error bound rest else false
  | .bind n :: rest => reaches_build_before_error (n :: bound) rest
  | .call_build_distance_function :: _ => true

/-- Names defined at module level in
`src/estimap_recreation/distance_functions.py`: the five imports and the
two function definitions.  (`EQUATION`, `tmp_map_name` and `score` are
not among them.) -/
def distance_functions_module_globals : List String :=
  ["grass", "CalledModuleError", "g", "r", "v",
   "build_distance_function", "compute_attractiveness"]

/-- The parameters of `compute_attractiveness(raster, metric, constant,
kappa, alpha, mask=None, output_name=None)`. -/
def compute_attractiveness_params : List String :=
  ["raster", "metric", "constant", "kappa", "alpha", "mask", "output_name"]

/-- The body of `compute_attractiveness`, lines 124-188, as reads and
bindings of non-builtin names in source order (builtins such as `str`
and the gettext `_` always resolve and are omitted). -/
def compute_attractiveness_body : List PyStep :=
  [ -- 124-131: distance_terms = [str(raster), str(metric), "distance",
    --          str(constant), str(kappa), str(alpha)]
    .read "raster", .read "metric", .read "constant", .read "kappa",
    .read "alpha", .bind "distance_terms",
    -- 133: if score:
    .read "score",
    -- 134: grass.debug(...score...)
    .read "grass", .read "score",
    -- 135: distance_terms += str(score)
    .read "distance_terms", .read "score", .bind "distance_terms",
    -- 138: tmp_distance = tmp_map_name(name="_".join([raster, metric]))
    .read "raster", .read "metric", .read "tmp_map_name", .bind "tmp_distance",
    -- 139-141: r.grow_distance(input=raster, distance=tmp_distance, ...)
    .read "r", .read "raster", .read "tmp_distance",
    -- 143-148: if mask: ... grass.verbose(...) ; r.mask(raster=mask, ...)
    .read "mask", .read "mask", .read "grass", .read "r", .read "mask",
    -- 151-158: if score: distance_function = build_distance_function(...)
    .read "score",
    .read "build_distance_function", .read "constant", .read "kappa",
    .read "alpha", .read "tmp_distance", .read "score",
    .call_build_distance_function, .bind "distance_function",
    -- 161-167: if not score: distance_function = build_distance_function(...)
    .read "score",
    .read "build_distance_function", .read "constant", .read "kappa",
    .read "alpha", .read "tmp_distance",
    .call_build_distance_function, .bind "distance_function",
    -- 170-174: if output_name: tmp_distance_map = tmp_map_name(name=output_name)
    --          else: basename = "_".join(...); tmp_distance_map = tmp_map_name(...)
    .read "output_name", .read "tmp_map_name", .read "output_name",
    .bind "tmp_distance_map",
    .read "raster", .bind "basename", .read "tmp_map_name", .read "basename",
    .bind "tmp_distance_map",
    -- 176-178: distance_function = EQUATION.format(result=tmp_distance_map,
    --          expression=distance_function)
    .read "EQUATION", .read "tmp_distance_map", .read "distance_function",
    .bind "distance_function",
    -- 179-181: msg = ...; grass.verbose(_(msg)); grass.mapcalc(distance_function)
    .read "distance_function", .bind "msg", .read "grass", .read "msg",
    .read "grass", .read "distance_function",
    -- 183: r.null(map=tmp_distance_map, null=0)
    .read "r", .read "tmp_distance_map",
    -- 185-186: compress_status = grass.read_command(...); grass.verbose(...)
    .read "grass", .read "tmp_distance_map", .bind "compress_status",
    .read "grass", .read "compress_status",
    -- 188: return tmp_distance_map
    .read "tmp_distance_map"]

/-- C9: every call of `compute_attractiveness` raises `NameError` on the
name `score` (at `if score:`) before any distance function is built:
`score` is neither a parameter nor a module-level name, its read is the
first unresolved one in the body, and no `build_distance_function` call
is reached before it. -/
theorem C9_compute_attractiveness_name_error :
    first_unresolved_read
        (compute_attractiveness_params ++ distance_functions_module_globals)
        compute_attractiveness_body = some "score"
    ∧ reaches_build_before_error
        (compute_attractiveness_params ++ distance_functions_module_globals)
        compute_attractiveness_body = false
    ∧ "score" ∉ compute_attractiveness_params
    ∧ "score" ∉ distance_functions_module_globals := by
  exact ⟨by decide, by decide, by decide, by decide⟩

/-!
## `src/estimap_recreation/utilities.py`, `merge_two_dictionaries`

    merged_dictionary = first.copy()
    merged_dictionary.update(second)
    return merged_dictionary

Python dictionaries are modelled as association lists with unique keys.
`dict_get` is the key lookup `d[k]` (`none` when the key is absent);
`dict_set` is the mutation `d[k] = v` of `dict.update`: an existing key
keeps its position and gets the new value, a new key is appended.
`merge_two_dictionaries` mutates only the copy, so in this pure embedding
the arguments `first` and `second` are untouched by construction.
-/
def dict_get {K V : Type} [DecidableEq K] (d : List (K × V)) (k : K) : Option V :=
  (d.find? (fun p => decide (p.1 = k))).map (fun p => p.2)

def dict_set {K V : Type} [DecidableEq K] (d : List (K × V)) (k : K) (v : V) :
    List (K × V) :=
  if d.any (fun p => decide (p.1 = k)) then
    d.map (fun p => if p.1 = k then (k, v) else p)
  else d ++ [(k, v)]

def merge_two_dictionaries {K V : Type} [DecidableEq K]
    (first second : List (K × V)) : List (K × V) :=
  let merged_dictionary := first
  let merged_dictionary :=
    second.foldl (fun d p => dict_set d p.1 p.2) merged_dictionary
  merged_dictionary

theorem dict_get_cons {K V : Type} [DecidableEq K] (p : K × V) (d : List (K × V))
    (k : K) :
    dict_get (p :: d) k = if p.1 = k then some p.2 else dict_get d k := by
  by_cases h : p.1 = k <;> simp [dict_get, List.find?_cons, h]

theorem dict_get_eq_none {K V : Type} [DecidableEq K] (d : List (K × V)) (k : K)
    (h : k ∉ d.map Prod.fst) : dict_get d k = none := by
  induction d with
  | nil => rfl
  | cons p d ih =>
    simp only [List.map_cons, List.mem_cons] at h
    push_neg at h
    rw [dict_get_cons, if_neg (fun hp => h.1 hp.symm), ih h.2]

theorem dict_get_set_self {K V : Type} [DecidableEq K] (d : List (K × V)) (k : K)
    (v : V) : dict_get (dict_set d k v) k = some v := by
  induction d with
  | nil => simp [dict_set, dict_get]
  | cons p d ih =>
    by_cases hp : p.1 = k
    · simp [dict_set, List.any_cons, hp, dict_get_cons]
    · by_cases ha : d.any (fun q => decide (q.1 = k)) = true
      · have hset : dict_set d k v = d.map (fun p => if p.1 = k then (k, v) else p) := by
          simp [dict_set, ha]
        have h1 : dict_set (p :: d) k v =
            p :: d.map (fun p => if p.1 = k then (k, v) else p) := by
          simp [dict_set, List.any_cons, hp, ha]
        rw [h1, dict_get_cons, if_neg hp, ← hset]
        exact ih
      · have hset : dict_set d k v = d ++ [(k, v)] := by
          simp [dict_set, ha]
        have h1 : dict_set (p :: d) k v = p :: (d ++ [(k, v)]) := by
          simp [dict_set, List.any_cons, hp, ha]
        rw [h1, dict_get_cons, if_neg hp, ← hset]
        exact ih

theorem dict_get_map_ne {K V : Type} [DecidableEq K] (d : List (K × V))
    (k k' : K) (v : V) (hk : k' ≠ k) :
    dict_get (d.map (fun p => if p.1 = k then (k, v) else p)) k' = dict_get d k' := by
  induction d with
  | nil => rfl
  | cons p d ih =>
    by_cases hp : p.1 = k
    · rw [List.map_cons, if_pos hp, dict_get_cons, dict_get_cons]
      rw [if_neg (fun h => hk h.symm), if_neg (fun h => hk (hp ▸ h).symm), ih]
    · rw [List.map_cons, if_neg hp, dict_get_cons, dict_get_cons, ih]

theorem dict_get_set_ne {K V : Type} [DecidableEq K] (d : List (K × V))
    (k k' : K) (v : V) (hk : k' ≠ k) :
    dict_get (dict_set d k v) k' = dict_get d k' := by
  by_cases ha : d.any (fun p => decide (p.1 = k)) = true
  · have h1 : dict_set d k v = d.map (fun p => if p.1 = k then (k, v) else p) := by
      simp [dict_set, ha]
    rw [h1, dict_get_map_ne d k k' v hk]
  · have h1 : dict_set d k v = d ++ [(k, v)] := by simp [dict_set, ha]
    rw [h1]
    simp only [dict_get, List.find?_append]
    have hd : (decide (k = k')) = false := decide_eq_false (fun h => hk h.symm)
    have h2 : List.find? (fun p => decide (p.1 = k')) [(k, v)] = none := by
      simp [List.find?, hd]
    rw [h2, Option.or_none]

theorem dict_get_merge {K V : Type} [DecidableEq K]
    (first second : List (K × V)) (k : K)
    (hs : (second.map Prod.fst).Nodup) :
    dict_get (merge_two_dictionaries first second) k =
      (dict_get second k).orElse (fun _ => dict_get first k) := by
  induction second generalizing first with
  | nil =>
    simp [merge_two_dictionaries, dict_get, Option.orElse]
  | cons p rest ih =>
    rw [List.map_cons, List.nodup_cons] at hs
    have hmerge : merge_two_dictionaries first (p :: rest) =
        merge_two_dictionaries (dict_set first p.1 p.2) rest := rfl
    rw [hmerge, ih (dict_set first p.1 p.2) hs.2]
    by_cases hk : k = p.1
    · subst hk
      rw [dict_get_eq_none rest p.1 hs.1, dict_get_cons, if_pos rfl,
        dict_get_set_self]
      rfl
    · rw [dict_get_set_ne first p.1 k p.2 hk, dict_get_cons,
        if_neg (fun h => hk h.symm)]

/-- C10: for every pair of dictionaries (with the unique keys a Python
dictionary guarantees), `merge_two_dictionaries first second` maps each
key to `second`'s value when the key occurs in `second` and to `first`'s
value otherwise, and its key set is the union of the two key sets.  (The
function copies `first` and mutates only the copy; in this pure embedding
the arguments are untouched by construction.) -/
theorem C10_merge_two_dictionaries {K V : Type} [DecidableEq K]
    (first second : List (K × V)) (k : K)
    (hs : (second.map Prod.fst).Nodup) :
    dict_get (merge_two_dictionaries first second) k =
      (dict_get second k).orElse (fun _ => dict_get first k)
    ∧ ((dict_get (merge_two_dictionaries first second) k).isSome ↔
        (dict_get first k).isSome ∨ (dict_get second k).isSome) := by
  have h := dict_get_merge first second k hs
  refine ⟨h, ?_⟩
  rw [h]
  cases dict_get second k <;> cases dict_get first k <;> simp [Option.orElse]

/-- Witness for C10 at `first = [(1, 10), (2, 20)]`,
`second = [(2, 30), (3, 40)]` and key 2 (where `second` wins). -/
theorem C10_merge_two_dictionaries_witness :
    dict_get (merge_two_dictionaries [((1 : ℕ), (10 : ℕ)), (2, 20)]
        [(2, 30), (3, 40)]) 2 =
      (dict_get [((2 : ℕ), (30 : ℕ)), (3, 40)] 2).orElse
        (fun _ => dict_get [((1 : ℕ), (10 : ℕ)), (2, 20)] 2)
    ∧ ((dict_get (merge_two_dictionaries [((1 : ℕ), (10 : ℕ)), (2, 20)]
          [(2, 30), (3, 40)]) 2).isSome ↔
        (dict_get [((1 : ℕ), (10 : ℕ)), (2, 20)] 2).isSome ∨
          (dict_get [((2 : ℕ), (30 : ℕ)), (3, 40)] 2).isSome) :=
  C10_merge_two_dictionaries [(1, 10), (2, 20)] [(2, 30), (3, 40)] 2 (by decide)
